import Mathlib

/-!
Shallow embedding of the `zwohash` hash accumulator (`src/lib.rs`) and
verification of the specification's claims about it.

Machine words are modelled as `Nat` values kept below `2 ^ bits`; wrapping
arithmetic is explicit `% 2 ^ bits`.  Both conditional-compilation variants
(64-bit and 32-bit `target_pointer_width`) are modelled via `WordParams`.
Byte slices are `List Nat` with each element a byte value; the native byte
order of the modelled machine is little-endian.
-/

namespace ZwoHash

/-- Word-width dependent compile-time parameters of the hasher: the word size
in bits, the multiplicative constant `M` and the rotation amount `R`, as
selected by `target_pointer_width` in the source. -/
structure WordParams where
  bits : Nat
  M : Nat
  R : Nat

/-- Parameters of the 64-bit build: `M = 0x2545f4914f6cdd1d`, `R = 41`. -/
def w64 : WordParams := ⟨64, 0x2545f4914f6cdd1d, 41⟩

/-- Parameters of the 32-bit build: `M = 0x2c9277b5`, `R = 21`. -/
def w32 : WordParams := ⟨32, 0x2c9277b5, 21⟩

/-- Bytes per machine word (`USIZE_BYTES = core::mem::size_of::<usize>()`). -/
def WordParams.bytes (p : WordParams) : Nat := p.bits / 8

/-- Rust `x.rotate_right(r)` on a `bits`-wide word, for `0 < r < bits`:
the bits shifted out at the low end wrap around to the high end. -/
def rotr (bits x r : Nat) : Nat :=
  (x >>> r) ||| ((x <<< (bits - r)) % 2 ^ bits)

/-- Source `ZwoHasher::write_usize`:
`self.state = self.state.wrapping_mul(M).rotate_right(R) ^ i`. -/
def writeUsize (p : WordParams) (s i : Nat) : Nat :=
  rotr p.bits ((s * p.M) % 2 ^ p.bits) p.R ^^^ i

/-- Source `ZwoHasher::finish`:
`let wide = (self.state as WideInt) * (M as WideInt);`
`(wide as usize).wrapping_sub((wide >> USIZE_BITS) as usize) as u64`.
The double-width product is exact since both factors fit in one word; the
subtraction wraps at the word width and the result is zero-extended to 64
bits (the identity on the value). -/
def finish (p : WordParams) (s : Nat) : Nat :=
  let wide := (s % 2 ^ p.bits) * p.M
  let lo := wide % 2 ^ p.bits
  let hi := (wide >>> p.bits) % 2 ^ p.bits
  (lo + 2 ^ p.bits - hi) % 2 ^ p.bits

/-- Rust `usize::from_ne_bytes` on a little-endian machine: the byte at the
lowest address is the least significant. -/
def fromLEBytes (l : List Nat) : Nat :=
  l.foldr (fun b acc => b + 256 * acc) 0

/-- Write the bytes of `src` into `dst` starting at index `off`: the effect
of `ptr::copy(src, dst.add(off), src.len())` once the source bytes have been
read out (memmove reads the whole source before writing). -/
def storeBytes : List Nat → Nat → List Nat → List Nat
  | dst, _, [] => dst
  | dst, off, b :: rest => storeBytes (dst.set off b) (off + 1) rest

/-- One iteration of the branch-free remainder-packing loop in
`ZwoHasher::write`: copy `step` bytes to `padded_chunk[byte_offset..]`, from
`partial_chunk[byte_offset..]` when `partial_chunk.len() & step != 0` and
from the destination itself (a no-op copy) otherwise, then advance
`byte_offset` by `byte_offset |= step & partial_chunk.len()`. -/
def packStep (tailChunk : List Nat) (acc : List Nat × Nat) (step : Nat) :
    List Nat × Nat :=
  let padded := acc.1
  let byteOffset := acc.2
  let src :=
    if tailChunk.length &&& step ≠ 0 then
      (tailChunk.drop byteOffset).take step
    else
      (padded.drop byteOffset).take step
  (storeBytes padded byteOffset src, byteOffset ||| (step &&& tailChunk.length))

/-- The `partial_steps` array of `ZwoHasher::write`: all powers of two less
than `USIZE_BYTES`, largest first (`[4, 2, 1]` on 64-bit, `[2, 1]` on
32-bit). -/
def WordParams.steps (p : WordParams) : List Nat :=
  if p.bits = 64 then [4, 2, 1] else [2, 1]

/-- The `padded_chunk` buffer produced by the branch-free packing loop in
`ZwoHasher::write`: starts as `[0; USIZE_BYTES]` with `byte_offset = 0`,
then one `packStep` per entry of `partial_steps`. -/
def padRemainder (p : WordParams) (tailChunk : List Nat) : List Nat :=
  (p.steps.foldl (packStep tailChunk) (List.replicate p.bytes 0, 0)).1

/-- The fold over `bytes.chunks_exact(USIZE_BYTES)` in `ZwoHasher::write`:
absorb `n` consecutive word-sized chunks of `rest` via `write_usize`,
returning the new state together with the unconsumed suffix. -/
def absorbChunks (p : WordParams) : Nat → Nat → List Nat → Nat × List Nat
  | 0, s, rest => (s, rest)
  | n + 1, s, rest =>
      absorbChunks p n (writeUsize p s (fromLEBytes (rest.take p.bytes)))
        (rest.drop p.bytes)

/-- Source `ZwoHasher::write`: absorb the slice length first, then every
full word-sized chunk left to right, then the zero-padded remainder word
(also when the remainder is empty). -/
def write (p : WordParams) (s : Nat) (bytes : List Nat) : Nat :=
  let s1 := writeUsize p s (bytes.length % 2 ^ p.bits)
  let res := absorbChunks p (bytes.length / p.bytes) s1 bytes
  writeUsize p res.1 (fromLEBytes (padRemainder p res.2))

/-- Source `ZwoHasher::default`: the accumulator starts with `state: 0`. -/
def defaultState : Nat := 0

/-- Rust `fn finish(&self) -> u64` takes the hasher by shared reference: as
a state transformer it returns the digest and leaves the state unchanged. -/
def finishStep (p : WordParams) (s : Nat) : Nat × Nat := (s, finish p s)

/-- The `hash_usize` helper of the source's test module: a fresh default
hasher, one `write_usize`, then `finish`. -/
def hashUsize (p : WordParams) (v : Nat) : Nat :=
  finish p (writeUsize p defaultState v)

/-- Source `write_u8` (also the shape of `write_u16` and `write_u32`):
`self.write_usize(i as usize)`; the cast zero-extends. -/
def writeU8 (p : WordParams) (s i : Nat) : Nat := writeUsize p s i

/-- Source `write_u16`: `self.write_usize(i as usize)`. -/
def writeU16 (p : WordParams) (s i : Nat) : Nat := writeUsize p s i

/-- Source `write_u32`: `self.write_usize(i as usize)`. -/
def writeU32 (p : WordParams) (s i : Nat) : Nat := writeUsize p s i

/-- Source `write_u64`, selected by `target_pointer_width`: on 64-bit one
absorb of `i as usize`; on 32-bit an absorb of `i as usize` (truncating)
followed by one of `(i >> 32) as usize`. -/
def writeU64 (p : WordParams) (s i : Nat) : Nat :=
  if p.bits = 64 then writeUsize p s (i % 2 ^ 64)
  else writeUsize p (writeUsize p s (i % 2 ^ 32)) ((i >>> 32) % 2 ^ 32)

/-- Source `write_u128`: `self.write_u64(i as u64)` then
`self.write_u64((i >> 64) as u64)`. -/
def writeU128 (p : WordParams) (s i : Nat) : Nat :=
  writeU64 p (writeU64 p s (i % 2 ^ 64)) ((i >>> 64) % 2 ^ 64)

/-- Two's-complement bit pattern of a signed integer at width `w`
(the Rust cast `i as uN` for `i : iN`). -/
def toUnsigned (w : Nat) (i : Int) : Nat := (i % ((2 : Int) ^ w)).toNat

/-- Source `write_i8`: `self.write_u8(i as u8)`. -/
def writeI8 (p : WordParams) (s : Nat) (i : Int) : Nat :=
  writeU8 p s (toUnsigned 8 i)

/-- Source `write_i16`: `self.write_u16(i as u16)`. -/
def writeI16 (p : WordParams) (s : Nat) (i : Int) : Nat :=
  writeU16 p s (toUnsigned 16 i)

/-- Source `write_i32`: `self.write_u32(i as u32)`. -/
def writeI32 (p : WordParams) (s : Nat) (i : Int) : Nat :=
  writeU32 p s (toUnsigned 32 i)

/-- Source `write_i64`: `self.write_u64(i as u64)`. -/
def writeI64 (p : WordParams) (s : Nat) (i : Int) : Nat :=
  writeU64 p s (toUnsigned 64 i)

/-- Source `write_i128`: `self.write_u128(i as u128)`. -/
def writeI128 (p : WordParams) (s : Nat) (i : Int) : Nat :=
  writeU128 p s (toUnsigned 128 i)

/-- Source `write_isize`: `self.write_usize(i as usize)`. -/
def writeIsize (p : WordParams) (s : Nat) (i : Int) : Nat :=
  writeUsize p s (toUnsigned p.bits i)

/-- The quantity `(hash_usize(b << i) >> j) as u16` of the source's
`usize_byte_subbword_collision_rate` test: the contiguous 16-bit window at
bit `j` of the digest of the word whose 8-bit window at bit `i` holds `b`. -/
def windowVal (i j b : Nat) : Nat :=
  (hashUsize w64 ((b <<< i) % 2 ^ 64) >>> j) % 2 ^ 16

/-- Count the number of distinct values among `windowVal i j b` for
`b < n`, as the test does with `sort`, `dedup` and `len`: a bit set of the
16-bit values seen so far is kept in `mask`, and `acc` is incremented
exactly when a value is seen for the first time. -/
def distinctLoop (i j : Nat) : Nat → Nat → Nat → Nat
  | 0, _, acc => acc
  | b + 1, mask, acc =>
      if mask &&& (1 <<< windowVal i j b) = 0 then
        distinctLoop i j b (mask ||| (1 <<< windowVal i j b)) (acc + 1)
      else distinctLoop i j b mask acc

/-- The number of distinct values of the 16-bit output window at bit `j`
over all 256 values `b` of the 8-bit input window at bit `i`
(the `hash_subbytes.len()` of the source's test after sort and dedup). -/
def windowDistinct (i j : Nat) : Nat := distinctLoop i j 256 0 0

/-- Evaluation-friendly form of `hashUsize w64`: same arithmetic with the
64-bit constants written out as literals and the redundant wrapping casts
removed (proved equal to `hashUsize w64` in `fastHash_eq` below). -/
def fastHash (v : Nat) : Nat :=
  (v * 2685821657736338717 % 18446744073709551616 + 18446744073709551616 -
    v * 2685821657736338717 / 18446744073709551616) % 18446744073709551616

/-- Evaluation-friendly branch-free form of `distinctLoop` (proved equal in
`fastLoop_eq` below): the increment `1 - ((mask >>> w) &&& 1)` is `1`
exactly when bit `w` of `mask` is clear. -/
def fastLoop (i j : Nat) : Nat → Nat → Nat → Nat :=
  Nat.rec (motive := fun _ => Nat → Nat → Nat)
    (fun _ acc => acc)
    (fun b ih mask acc =>
      let w := (fastHash ((b <<< i) % 18446744073709551616) >>> j) % 65536
      ih (mask ||| (1 <<< w)) (acc + (1 - ((mask >>> w) &&& 1))))

/-- Check `255 ≤ fastLoop i j 256 0 0` for every output window `j < m`. -/
def fastRow (i : Nat) : Nat → Bool :=
  Nat.rec (motive := fun _ => Bool)
    true
    (fun j ih => Nat.ble 255 (fastLoop i j 256 0 0) && ih)

/-- The word sequence described by the spec for a byte-slice absorb: the
slice's length as a machine word first, then the native-endian decoded
whole word-sized chunks left to right, then one word whose low-address
bytes hold the trailing remainder and whose other bytes are zero. -/
def specWords (p : WordParams) (bytes : List Nat) : List Nat :=
  (bytes.length % 2 ^ p.bits)
    :: ((List.range (bytes.length / p.bytes)).map fun k =>
        fromLEBytes ((bytes.drop (k * p.bytes)).take p.bytes))
    ++ [fromLEBytes (bytes.drop (bytes.length / p.bytes * p.bytes)
        ++ List.replicate (p.bytes - bytes.length % p.bytes) 0)]

end ZwoHash

namespace ZwoHash

/-! ### Bit-arithmetic helper lemmas -/

theorem lor_mul_two_pow {a c k : Nat} (h : a < 2 ^ k) :
    a ||| c * 2 ^ k = a + c * 2 ^ k := by
  rw [mul_comm c (2 ^ k), Nat.lor_comm, ← Nat.mul_add_lt_is_or h c, Nat.add_comm]

/-- The rotation written arithmetically: for `x < 2 ^ b` and `r ≤ b`,
`rotate_right` moves the low `r` bits of `x` to the top. -/
theorem rotr_eq (b x r : Nat) (hr : r ≤ b) (hx : x < 2 ^ b) :
    rotr b x r = x / 2 ^ r + x % 2 ^ r * 2 ^ (b - r) := by
  have hb : (2 : Nat) ^ b = 2 ^ r * 2 ^ (b - r) := by
    rw [← pow_add]; congr 1; omega
  have hdiv : x / 2 ^ r < 2 ^ (b - r) := by
    rw [Nat.div_lt_iff_lt_mul (Nat.two_pow_pos r)]
    rw [hb, mul_comm] at hx
    exact hx
  unfold rotr
  rw [Nat.shiftRight_eq_div_pow, Nat.shiftLeft_eq, hb, Nat.mul_mod_mul_right]
  exact lor_mul_two_pow hdiv

theorem and_one_eq_toNat_testBit (m w : Nat) :
    (m >>> w) &&& 1 = (m.testBit w).toNat := by
  have h := Nat.and_two_pow (m >>> w) 0
  rw [pow_zero, mul_one] at h
  rw [h, Nat.testBit_shiftRight, Nat.add_zero]

theorem lor_of_testBit {m w : Nat} (h : m.testBit w = true) :
    m ||| 2 ^ w = m := by
  refine Nat.eq_of_testBit_eq fun k => ?_
  rw [Nat.testBit_lor]
  rcases eq_or_ne k w with rfl | hk
  · simp [h]
  · simp [Nat.testBit_two_pow_of_ne (Ne.symm hk)]

/-! ### The optimized collision check agrees with the faithful one -/

theorem fastHash_eq {v : Nat} (hv : v < 2 ^ 64) : fastHash v = hashUsize w64 v := by
  have h1 : writeUsize w64 0 v = v := by
    simp [writeUsize, rotr, w64]
  have hv' : v < 18446744073709551616 := by omega
  have hx : v * 2685821657736338717 < 18446744073709551616 * 18446744073709551616 := by
    calc v * 2685821657736338717 ≤ 18446744073709551615 * 2685821657736338717 :=
          Nat.mul_le_mul_right _ (by omega)
      _ < 18446744073709551616 * 18446744073709551616 := by norm_num
  unfold hashUsize defaultState
  rw [h1]
  unfold finish fastHash
  simp only [w64, Nat.shiftRight_eq_div_pow]
  norm_num
  rw [Nat.mod_eq_of_lt hv']
  omega

theorem fastLoop_succ (i j b mask acc : Nat) :
    fastLoop i j (b + 1) mask acc =
      fastLoop i j b
        (mask ||| (1 <<< ((fastHash ((b <<< i) % 18446744073709551616) >>> j) % 65536)))
        (acc + (1 - ((mask >>> ((fastHash ((b <<< i) % 18446744073709551616) >>> j) % 65536)) &&& 1))) :=
  rfl

theorem fastLoop_eq (i j : Nat) :
    ∀ n mask acc, fastLoop i j n mask acc = distinctLoop i j n mask acc := by
  intro n
  induction n with
  | zero => intro mask acc; rfl
  | succ b ih =>
      intro mask acc
      have hw : (fastHash ((b <<< i) % 18446744073709551616) >>> j) % 65536
          = windowVal i j b := by
        have h64 : (18446744073709551616 : Nat) = 2 ^ 64 := by norm_num
        have h16 : (65536 : Nat) = 2 ^ 16 := by norm_num
        rw [h64, h16, fastHash_eq (Nat.mod_lt _ (by norm_num))]
        rfl
      rw [fastLoop_succ, hw]
      by_cases h : mask.testBit (windowVal i j b)
      · have hand : ¬ mask &&& (1 <<< windowVal i j b) = 0 := by
          rw [Nat.one_shiftLeft, Nat.and_two_pow, h]
          simp only [Bool.toNat_true, one_mul]
          exact (Nat.two_pow_pos (windowVal i j b)).ne'
        rw [distinctLoop, if_neg hand]
        rw [Nat.one_shiftLeft, lor_of_testBit h, and_one_eq_toNat_testBit, h]
        simpa using ih mask acc
      · have h' : mask.testBit (windowVal i j b) = false := by simpa using h
        have hand : mask &&& (1 <<< windowVal i j b) = 0 := by
          rw [Nat.one_shiftLeft, Nat.and_two_pow, h']
          simp
        rw [distinctLoop, if_pos hand]
        rw [and_one_eq_toNat_testBit, h']
        simpa using ih (mask ||| 1 <<< windowVal i j b) (acc + 1)

/-! ### The branch-free remainder packing equals straightforward padding -/

/-- Literal values of the `step & len` and `byte_offset | step` expressions
arising in the packing loop, for every remainder length. -/
theorem step_bit_lits :
    ((4 : Nat) &&& 0 = 0) ∧ ((4 : Nat) &&& 1 = 0) ∧ ((4 : Nat) &&& 2 = 0) ∧
    ((4 : Nat) &&& 3 = 0) ∧ ((4 : Nat) &&& 4 = 4) ∧ ((4 : Nat) &&& 5 = 4) ∧
    ((4 : Nat) &&& 6 = 4) ∧ ((4 : Nat) &&& 7 = 4) ∧
    ((2 : Nat) &&& 0 = 0) ∧ ((2 : Nat) &&& 1 = 0) ∧ ((2 : Nat) &&& 2 = 2) ∧
    ((2 : Nat) &&& 3 = 2) ∧ ((2 : Nat) &&& 4 = 0) ∧ ((2 : Nat) &&& 5 = 0) ∧
    ((2 : Nat) &&& 6 = 2) ∧ ((2 : Nat) &&& 7 = 2) ∧
    ((1 : Nat) &&& 0 = 0) ∧ ((1 : Nat) &&& 1 = 1) ∧ ((1 : Nat) &&& 2 = 0) ∧
    ((1 : Nat) &&& 3 = 1) ∧ ((1 : Nat) &&& 4 = 0) ∧ ((1 : Nat) &&& 5 = 1) ∧
    ((1 : Nat) &&& 6 = 0) ∧ ((1 : Nat) &&& 7 = 1) ∧
    ((4 : Nat) ||| 2 = 6) ∧ ((4 : Nat) ||| 1 = 5) ∧ ((2 : Nat) ||| 1 = 3) ∧
    ((6 : Nat) ||| 1 = 7) := by decide

theorem padRemainder_w64_eq : ∀ (t : List Nat), t.length < 8 →
    padRemainder w64 t = t ++ List.replicate (8 - t.length) 0
  | [], _ => by
      simp [padRemainder, WordParams.steps, WordParams.bytes, w64, packStep,
        storeBytes, step_bit_lits, Nat.zero_or, Nat.or_zero]
  | [a], _ => by
      simp [padRemainder, WordParams.steps, WordParams.bytes, w64, packStep,
        storeBytes, step_bit_lits, Nat.zero_or, Nat.or_zero]
  | [a, b], _ => by
      simp [padRemainder, WordParams.steps, WordParams.bytes, w64, packStep,
        storeBytes, step_bit_lits, Nat.zero_or, Nat.or_zero]
  | [a, b, c], _ => by
      simp [padRemainder, WordParams.steps, WordParams.bytes, w64, packStep,
        storeBytes, step_bit_lits, Nat.zero_or, Nat.or_zero]
  | [a, b, c, d], _ => by
      simp [padRemainder, WordParams.steps, WordParams.bytes, w64, packStep,
        storeBytes, step_bit_lits, Nat.zero_or, Nat.or_zero]
  | [a, b, c, d, e], _ => by
      simp [padRemainder, WordParams.steps, WordParams.bytes, w64, packStep,
        storeBytes, step_bit_lits, Nat.zero_or, Nat.or_zero]
  | [a, b, c, d, e, f], _ => by
      simp [padRemainder, WordParams.steps, WordParams.bytes, w64, packStep,
        storeBytes, step_bit_lits, Nat.zero_or, Nat.or_zero]
  | [a, b, c, d, e, f, g], _ => by
      simp [padRemainder, WordParams.steps, WordParams.bytes, w64, packStep,
        storeBytes, step_bit_lits, Nat.zero_or, Nat.or_zero]
  | a :: b :: c :: d :: e :: f :: g :: x :: rest, h => by
      simp only [List.length_cons] at h; omega

theorem padRemainder_w32_eq : ∀ (t : List Nat), t.length < 4 →
    padRemainder w32 t = t ++ List.replicate (4 - t.length) 0
  | [], _ => by
      simp [padRemainder, WordParams.steps, WordParams.bytes, w32, packStep,
        storeBytes, step_bit_lits, Nat.zero_or, Nat.or_zero]
  | [a], _ => by
      simp [padRemainder, WordParams.steps, WordParams.bytes, w32, packStep,
        storeBytes, step_bit_lits, Nat.zero_or, Nat.or_zero]
  | [a, b], _ => by
      simp [padRemainder, WordParams.steps, WordParams.bytes, w32, packStep,
        storeBytes, step_bit_lits, Nat.zero_or, Nat.or_zero]
  | [a, b, c], _ => by
      simp [padRemainder, WordParams.steps, WordParams.bytes, w32, packStep,
        storeBytes, step_bit_lits, Nat.zero_or, Nat.or_zero]
  | a :: b :: c :: d :: rest, h => by
      simp only [List.length_cons] at h; omega

/-! ### Decomposition of the byte-slice absorb into word absorbs -/

theorem absorbChunks_eq (p : WordParams) :
    ∀ (n : Nat) (s : Nat) (rest : List Nat),
      absorbChunks p n s rest =
        (((List.range n).map fun k =>
            fromLEBytes ((rest.drop (k * p.bytes)).take p.bytes)).foldl
          (writeUsize p) s,
         rest.drop (n * p.bytes)) := by
  intro n
  induction n with
  | zero => intro s rest; simp [absorbChunks]
  | succ n ih =>
      intro s rest
      simp only [absorbChunks]
      rw [ih]
      simp only [Prod.mk.injEq]
      constructor
      · rw [List.range_succ_eq_map, List.map_cons, List.map_map, List.foldl_cons]
        simp only [Nat.zero_mul, List.drop_zero]
        refine congrArg (List.foldl (writeUsize p) _) ?_
        refine List.map_congr_left fun k _ => ?_
        simp only [Function.comp_apply]
        rw [List.drop_drop]
        have he : p.bytes + k * p.bytes = Nat.succ k * p.bytes := by
          rw [Nat.succ_mul]; ring
        rw [he]
      · rw [List.drop_drop]
        congr 1
        ring

theorem write_eq_foldl (p : WordParams) (hbytes : 0 < p.bytes)
    (hpad : ∀ t : List Nat, t.length < p.bytes →
      padRemainder p t = t ++ List.replicate (p.bytes - t.length) 0)
    (s : Nat) (bytes : List Nat) :
    write p s bytes = (specWords p bytes).foldl (writeUsize p) s := by
  unfold write specWords
  simp only [absorbChunks_eq]
  have hlen : (bytes.drop (bytes.length / p.bytes * p.bytes)).length
      = bytes.length % p.bytes := by
    set q := bytes.length / p.bytes with hq
    set r := bytes.length % p.bytes with hr
    have h := Nat.div_add_mod bytes.length p.bytes
    rw [← hq, ← hr] at h
    have h2 : bytes.length = q * p.bytes + r := by rw [← h]; ring
    rw [List.length_drop, h2, Nat.add_sub_cancel_left]
  have hrem : (bytes.drop (bytes.length / p.bytes * p.bytes)).length < p.bytes := by
    rw [hlen]; exact Nat.mod_lt _ hbytes
  simp only [List.foldl_cons, List.foldl_append, List.foldl_nil]
  rw [hpad _ hrem, hlen]

theorem fastRow_spec (i : Nat) :
    ∀ m, fastRow i m = true → ∀ j, j < m → 255 ≤ fastLoop i j 256 0 0 := by
  intro m
  induction m with
  | zero => intro _ j hj; omega
  | succ m ih =>
      intro h j hj
      have hstep : fastRow i (m + 1)
          = (Nat.ble 255 (fastLoop i m 256 0 0) && fastRow i m) := rfl
      rw [hstep, Bool.and_eq_true] at h
      rcases Nat.lt_succ_iff_lt_or_eq.mp hj with h2 | rfl
      · exact ih h.2 j h2
      · exact Nat.le_of_ble_eq_true h.1

set_option maxRecDepth 100000 in
set_option maxHeartbeats 4000000 in
theorem fastRow_true_0 : fastRow 0 49 = true := by decide

set_option maxRecDepth 100000 in
set_option maxHeartbeats 4000000 in
theorem fastRow_true_1 : fastRow 1 49 = true := by decide

set_option maxRecDepth 100000 in
set_option maxHeartbeats 4000000 in
theorem fastRow_true_2 : fastRow 2 49 = true := by decide

set_option maxRecDepth 100000 in
set_option maxHeartbeats 4000000 in
theorem fastRow_true_3 : fastRow 3 49 = true := by decide

set_option maxRecDepth 100000 in
set_option maxHeartbeats 4000000 in
theorem fastRow_true_4 : fastRow 4 49 = true := by decide

set_option maxRecDepth 100000 in
set_option maxHeartbeats 4000000 in
theorem fastRow_true_5 : fastRow 5 49 = true := by decide

set_option maxRecDepth 100000 in
set_option maxHeartbeats 4000000 in
theorem fastRow_true_6 : fastRow 6 49 = true := by decide

set_option maxRecDepth 100000 in
set_option maxHeartbeats 4000000 in
theorem fastRow_true_7 : fastRow 7 49 = true := by decide

set_option maxRecDepth 100000 in
set_option maxHeartbeats 4000000 in
theorem fastRow_true_8 : fastRow 8 49 = true := by decide

set_option maxRecDepth 100000 in
set_option maxHeartbeats 4000000 in
theorem fastRow_true_9 : fastRow 9 49 = true := by decide

set_option maxRecDepth 100000 in
set_option maxHeartbeats 4000000 in
theorem fastRow_true_10 : fastRow 10 49 = true := by decide

set_option maxRecDepth 100000 in
set_option maxHeartbeats 4000000 in
theorem fastRow_true_11 : fastRow 11 49 = true := by decide

set_option maxRecDepth 100000 in
set_option maxHeartbeats 4000000 in
theorem fastRow_true_12 : fastRow 12 49 = true := by decide

set_option maxRecDepth 100000 in
set_option maxHeartbeats 4000000 in
theorem fastRow_true_13 : fastRow 13 49 = true := by decide

set_option maxRecDepth 100000 in
set_option maxHeartbeats 4000000 in
theorem fastRow_true_14 : fastRow 14 49 = true := by decide

set_option maxRecDepth 100000 in
set_option maxHeartbeats 4000000 in
theorem fastRow_true_15 : fastRow 15 49 = true := by decide

set_option maxRecDepth 100000 in
set_option maxHeartbeats 4000000 in
theorem fastRow_true_16 : fastRow 16 49 = true := by decide

set_option maxRecDepth 100000 in
set_option maxHeartbeats 4000000 in
theorem fastRow_true_17 : fastRow 17 49 = true := by decide

set_option maxRecDepth 100000 in
set_option maxHeartbeats 4000000 in
theorem fastRow_true_18 : fastRow 18 49 = true := by decide

set_option maxRecDepth 100000 in
set_option maxHeartbeats 4000000 in
theorem fastRow_true_19 : fastRow 19 49 = true := by decide

set_option maxRecDepth 100000 in
set_option maxHeartbeats 4000000 in
theorem fastRow_true_20 : fastRow 20 49 = true := by decide

set_option maxRecDepth 100000 in
set_option maxHeartbeats 4000000 in
theorem fastRow_true_21 : fastRow 21 49 = true := by decide

set_option maxRecDepth 100000 in
set_option maxHeartbeats 4000000 in
theorem fastRow_true_22 : fastRow 22 49 = true := by decide

set_option maxRecDepth 100000 in
set_option maxHeartbeats 4000000 in
theorem fastRow_true_23 : fastRow 23 49 = true := by decide

set_option maxRecDepth 100000 in
set_option maxHeartbeats 4000000 in
theorem fastRow_true_24 : fastRow 24 49 = true := by decide

set_option maxRecDepth 100000 in
set_option maxHeartbeats 4000000 in
theorem fastRow_true_25 : fastRow 25 49 = true := by decide

set_option maxRecDepth 100000 in
set_option maxHeartbeats 4000000 in
theorem fastRow_true_26 : fastRow 26 49 = true := by decide

set_option maxRecDepth 100000 in
set_option maxHeartbeats 4000000 in
theorem fastRow_true_27 : fastRow 27 49 = true := by decide

set_option maxRecDepth 100000 in
set_option maxHeartbeats 4000000 in
theorem fastRow_true_28 : fastRow 28 49 = true := by decide

set_option maxRecDepth 100000 in
set_option maxHeartbeats 4000000 in
theorem fastRow_true_29 : fastRow 29 49 = true := by decide

set_option maxRecDepth 100000 in
set_option maxHeartbeats 4000000 in
theorem fastRow_true_30 : fastRow 30 49 = true := by decide

set_option maxRecDepth 100000 in
set_option maxHeartbeats 4000000 in
theorem fastRow_true_31 : fastRow 31 49 = true := by decide

set_option maxRecDepth 100000 in
set_option maxHeartbeats 4000000 in
theorem fastRow_true_32 : fastRow 32 49 = true := by decide

set_option maxRecDepth 100000 in
set_option maxHeartbeats 4000000 in
theorem fastRow_true_33 : fastRow 33 49 = true := by decide

set_option maxRecDepth 100000 in
set_option maxHeartbeats 4000000 in
theorem fastRow_true_34 : fastRow 34 49 = true := by decide

set_option maxRecDepth 100000 in
set_option maxHeartbeats 4000000 in
theorem fastRow_true_35 : fastRow 35 49 = true := by decide

set_option maxRecDepth 100000 in
set_option maxHeartbeats 4000000 in
theorem fastRow_true_36 : fastRow 36 49 = true := by decide

set_option maxRecDepth 100000 in
set_option maxHeartbeats 4000000 in
theorem fastRow_true_37 : fastRow 37 49 = true := by decide

set_option maxRecDepth 100000 in
set_option maxHeartbeats 4000000 in
theorem fastRow_true_38 : fastRow 38 49 = true := by decide

set_option maxRecDepth 100000 in
set_option maxHeartbeats 4000000 in
theorem fastRow_true_39 : fastRow 39 49 = true := by decide

set_option maxRecDepth 100000 in
set_option maxHeartbeats 4000000 in
theorem fastRow_true_40 : fastRow 40 49 = true := by decide

set_option maxRecDepth 100000 in
set_option maxHeartbeats 4000000 in
theorem fastRow_true_41 : fastRow 41 49 = true := by decide

set_option maxRecDepth 100000 in
set_option maxHeartbeats 4000000 in
theorem fastRow_true_42 : fastRow 42 49 = true := by decide

set_option maxRecDepth 100000 in
set_option maxHeartbeats 4000000 in
theorem fastRow_true_43 : fastRow 43 49 = true := by decide

set_option maxRecDepth 100000 in
set_option maxHeartbeats 4000000 in
theorem fastRow_true_44 : fastRow 44 49 = true := by decide

set_option maxRecDepth 100000 in
set_option maxHeartbeats 4000000 in
theorem fastRow_true_45 : fastRow 45 49 = true := by decide

set_option maxRecDepth 100000 in
set_option maxHeartbeats 4000000 in
theorem fastRow_true_46 : fastRow 46 49 = true := by decide

set_option maxRecDepth 100000 in
set_option maxHeartbeats 4000000 in
theorem fastRow_true_47 : fastRow 47 49 = true := by decide

set_option maxRecDepth 100000 in
set_option maxHeartbeats 4000000 in
theorem fastRow_true_48 : fastRow 48 49 = true := by decide

set_option maxRecDepth 100000 in
set_option maxHeartbeats 4000000 in
theorem fastRow_true_49 : fastRow 49 49 = true := by decide

set_option maxRecDepth 100000 in
set_option maxHeartbeats 4000000 in
theorem fastRow_true_50 : fastRow 50 49 = true := by decide

set_option maxRecDepth 100000 in
set_option maxHeartbeats 4000000 in
theorem fastRow_true_51 : fastRow 51 49 = true := by decide

set_option maxRecDepth 100000 in
set_option maxHeartbeats 4000000 in
theorem fastRow_true_52 : fastRow 52 49 = true := by decide

set_option maxRecDepth 100000 in
set_option maxHeartbeats 4000000 in
theorem fastRow_true_53 : fastRow 53 49 = true := by decide

set_option maxRecDepth 100000 in
set_option maxHeartbeats 4000000 in
theorem fastRow_true_54 : fastRow 54 49 = true := by decide

set_option maxRecDepth 100000 in
set_option maxHeartbeats 4000000 in
theorem fastRow_true_55 : fastRow 55 49 = true := by decide

set_option maxRecDepth 100000 in
set_option maxHeartbeats 4000000 in
theorem fastRow_true_56 : fastRow 56 49 = true := by decide

/-- Every input-window row passes the exhaustive output-window check. -/
theorem rows_all : ∀ i, i < 57 → fastRow i 49 = true := by
  intro i hi
  interval_cases i
  · exact fastRow_true_0
  · exact fastRow_true_1
  · exact fastRow_true_2
  · exact fastRow_true_3
  · exact fastRow_true_4
  · exact fastRow_true_5
  · exact fastRow_true_6
  · exact fastRow_true_7
  · exact fastRow_true_8
  · exact fastRow_true_9
  · exact fastRow_true_10
  · exact fastRow_true_11
  · exact fastRow_true_12
  · exact fastRow_true_13
  · exact fastRow_true_14
  · exact fastRow_true_15
  · exact fastRow_true_16
  · exact fastRow_true_17
  · exact fastRow_true_18
  · exact fastRow_true_19
  · exact fastRow_true_20
  · exact fastRow_true_21
  · exact fastRow_true_22
  · exact fastRow_true_23
  · exact fastRow_true_24
  · exact fastRow_true_25
  · exact fastRow_true_26
  · exact fastRow_true_27
  · exact fastRow_true_28
  · exact fastRow_true_29
  · exact fastRow_true_30
  · exact fastRow_true_31
  · exact fastRow_true_32
  · exact fastRow_true_33
  · exact fastRow_true_34
  · exact fastRow_true_35
  · exact fastRow_true_36
  · exact fastRow_true_37
  · exact fastRow_true_38
  · exact fastRow_true_39
  · exact fastRow_true_40
  · exact fastRow_true_41
  · exact fastRow_true_42
  · exact fastRow_true_43
  · exact fastRow_true_44
  · exact fastRow_true_45
  · exact fastRow_true_46
  · exact fastRow_true_47
  · exact fastRow_true_48
  · exact fastRow_true_49
  · exact fastRow_true_50
  · exact fastRow_true_51
  · exact fastRow_true_52
  · exact fastRow_true_53
  · exact fastRow_true_54
  · exact fastRow_true_55
  · exact fastRow_true_56

/-! ### Claim theorems -/

/-- C1: for every 8-bit window of a 64-bit machine word (bit offsets
`i ≤ 56`, all other input bits zero) and every contiguous 16-bit window of
the 64-bit digest (bit offsets `j ≤ 48`), hashing all 256 values of the
input window with a freshly constructed accumulator (one `write_usize`
then `finish`) yields at least 255 distinct values in the output window —
that is, at most one colliding pair (in fact all 256 are distinct). -/
theorem claim_subword_collision_bound :
    ∀ i, i ≤ 56 → ∀ j, j ≤ 48 → 255 ≤ windowDistinct i j := by
  intro i hi j hj
  have h := fastRow_spec i 49 (rows_all i (by omega)) j (by omega)
  rw [fastLoop_eq] at h
  simpa only [windowDistinct] using h

/-- Witness for C1 at the extreme window offsets `i = 56`, `j = 48`. -/
theorem claim_subword_collision_bound_witness :
    255 ≤ windowDistinct 56 48 :=
  claim_subword_collision_bound 56 (by decide) 48 (by decide)

/-- C4: for every current state `s` and incoming word `i`, `write_usize`
produces exactly `rotate_right(s * M, R) XOR i` with wrapping
multiplication (the rotation spelled out arithmetically: the low `R` bits
of the truncated product wrap to the top), on both word widths. -/
theorem claim_write_usize_formula :
    (∀ s i : Nat, writeUsize w64 s i
        = (s * w64.M % 2 ^ 64 / 2 ^ 41 + s * w64.M % 2 ^ 64 % 2 ^ 41 * 2 ^ 23) ^^^ i) ∧
    (∀ s i : Nat, writeUsize w32 s i
        = (s * w32.M % 2 ^ 32 / 2 ^ 21 + s * w32.M % 2 ^ 32 % 2 ^ 21 * 2 ^ 11) ^^^ i) := by
  constructor <;> intro s i
  · simp only [writeUsize, w64]
    rw [rotr_eq 64 _ 41 (by norm_num) (Nat.mod_lt _ (by norm_num))]
  · simp only [writeUsize, w32]
    rw [rotr_eq 32 _ 21 (by norm_num) (Nat.mod_lt _ (by norm_num))]

/-- C3: for every in-range accumulator state `s`, `finish` is the low
machine-word half of the double-width (non-truncating) product `s * M`
minus the high half, wrapping at the word width, and the digest fits in 64
bits; on both word widths. -/
theorem claim_finish_formula :
    (∀ s : Nat, s < 2 ^ 64 →
      finish w64 s = (s * w64.M % 2 ^ 64 + 2 ^ 64 - s * w64.M / 2 ^ 64) % 2 ^ 64 ∧
      finish w64 s < 2 ^ 64) ∧
    (∀ s : Nat, s < 2 ^ 32 →
      finish w32 s = (s * w32.M % 2 ^ 32 + 2 ^ 32 - s * w32.M / 2 ^ 32) % 2 ^ 32 ∧
      finish w32 s < 2 ^ 64) := by
  constructor <;> intro s hs <;> constructor
  · have hm : s * (2685821657736338717 : Nat) < 2 ^ 64 * 2 ^ 64 :=
      mul_lt_mul'' hs (by norm_num) (Nat.zero_le _) (Nat.zero_le _)
    have hd : s * (2685821657736338717 : Nat) / 2 ^ 64 < 2 ^ 64 :=
      (Nat.div_lt_iff_lt_mul (Nat.two_pow_pos 64)).mpr hm
    simp only [finish, w64, Nat.shiftRight_eq_div_pow, Nat.mod_eq_of_lt hs,
      Nat.mod_eq_of_lt hd]
  · simp only [finish, w64]
    exact Nat.mod_lt _ (by norm_num)
  · have hm : s * (747796405 : Nat) < 2 ^ 32 * 2 ^ 32 :=
      mul_lt_mul'' hs (by norm_num) (Nat.zero_le _) (Nat.zero_le _)
    have hd : s * (747796405 : Nat) / 2 ^ 32 < 2 ^ 32 :=
      (Nat.div_lt_iff_lt_mul (Nat.two_pow_pos 32)).mpr hm
    simp only [finish, w32, Nat.shiftRight_eq_div_pow, Nat.mod_eq_of_lt hs,
      Nat.mod_eq_of_lt hd]
  · simp only [finish, w32]
    exact lt_trans (Nat.mod_lt _ (by norm_num)) (by norm_num)

/-- Witness for C3 at the concrete states 12345 (64-bit) and 777 (32-bit). -/
theorem claim_finish_formula_witness :
    finish w64 12345 = (12345 * w64.M % 2 ^ 64 + 2 ^ 64 - 12345 * w64.M / 2 ^ 64) % 2 ^ 64 ∧
    finish w32 777 = (777 * w32.M % 2 ^ 32 + 2 ^ 32 - 777 * w32.M / 2 ^ 32) % 2 ^ 32 :=
  ⟨(claim_finish_formula.1 12345 (by norm_num)).1,
   (claim_finish_formula.2 777 (by norm_num)).1⟩

/-- C2: on both word widths, the byte-slice absorb equals the fold of
`write_usize` over: the slice length first, then each whole word-sized
chunk native-endian decoded left to right, then one zero-padded remainder
word holding the trailing bytes at the low addresses — the remainder word
being absorbed even when the remainder is empty. -/
theorem claim_write_decomposition :
    (∀ (s : Nat) (bytes : List Nat),
      write w64 s bytes = (specWords w64 bytes).foldl (writeUsize w64) s) ∧
    (∀ (s : Nat) (bytes : List Nat),
      write w32 s bytes = (specWords w32 bytes).foldl (writeUsize w32) s) :=
  ⟨fun s bytes =>
    write_eq_foldl w64 (by norm_num [WordParams.bytes, w64])
      (fun t ht => padRemainder_w64_eq t ht) s bytes,
   fun s bytes =>
    write_eq_foldl w32 (by norm_num [WordParams.bytes, w32])
      (fun t ht => padRemainder_w32_eq t ht) s bytes⟩

/-- C6: `finish` takes the accumulator by shared reference: it leaves the
state unchanged, a second `finish` returns the same digest, and absorbs
performed after a `finish` behave exactly as if it had not been called. -/
theorem claim_finish_frame (p : WordParams) (s : Nat) :
    (finishStep p s).1 = s ∧
    (finishStep p (finishStep p s).1).2 = (finishStep p s).2 ∧
    (∀ i, writeUsize p (finishStep p s).1 i = writeUsize p s i) ∧
    (∀ bytes, write p (finishStep p s).1 bytes = write p s bytes) :=
  ⟨rfl, rfl, fun _ => rfl, fun _ => rfl⟩

/-- C9: the branch-free remainder-packing loop of `write` is
functionally equivalent to straightforward packing: for every remainder of
length `0..7`, `padded_chunk` holds exactly the remainder bytes at the low
indices followed by zeros. -/
theorem claim_branchfree_padding (t : List Nat) (h : t.length < 8) :
    padRemainder w64 t = t ++ List.replicate (8 - t.length) 0 :=
  padRemainder_w64_eq t h

/-- Witness for C9 on the concrete three-byte remainder `[10, 20, 30]`. -/
theorem claim_branchfree_padding_witness :
    padRemainder w64 [10, 20, 30]
      = [10, 20, 30] ++ List.replicate (8 - [10, 20, 30].length) 0 :=
  claim_branchfree_padding [10, 20, 30] (by decide)

/-- C8: every fixed-width convenience absorb reduces to `write_usize` on
the value's unsigned bit pattern: 8/16/32-bit values are one word absorb;
64-bit values are one word absorb on the 64-bit build and a low-then-high
pair on the 32-bit build; 128-bit values are a low-then-high pair of
64-bit absorbs (hence four word absorbs, lowest first, on 32-bit); signed
variants pass the two's-complement bit pattern of the value. -/
theorem claim_convenience_writes :
    (∀ (p : WordParams) (s i : Nat),
      writeU8 p s i = writeUsize p s i ∧ writeU16 p s i = writeUsize p s i ∧
      writeU32 p s i = writeUsize p s i) ∧
    (∀ s i : Nat, i < 2 ^ 64 → writeU64 w64 s i = writeUsize w64 s i) ∧
    (∀ s i : Nat, i < 2 ^ 64 →
      writeU64 w32 s i
        = writeUsize w32 (writeUsize w32 s (i % 2 ^ 32)) (i / 2 ^ 32)) ∧
    (∀ s i : Nat, i < 2 ^ 128 →
      writeU128 w64 s i
        = writeUsize w64 (writeUsize w64 s (i % 2 ^ 64)) (i / 2 ^ 64)) ∧
    (∀ s i : Nat, i < 2 ^ 128 →
      writeU128 w32 s i
        = writeUsize w32 (writeUsize w32 (writeUsize w32
            (writeUsize w32 s (i % 2 ^ 32)) (i / 2 ^ 32 % 2 ^ 32))
            (i / 2 ^ 64 % 2 ^ 32)) (i / 2 ^ 96)) ∧
    (∀ (p : WordParams) (s : Nat) (i : Int),
      writeI8 p s i = writeUsize p s (toUnsigned 8 i) ∧
      writeI64 p s i = writeU64 p s (toUnsigned 64 i) ∧
      writeI128 p s i = writeU128 p s (toUnsigned 128 i) ∧
      writeIsize p s i = writeUsize p s (toUnsigned p.bits i)) ∧
    (∀ (p : WordParams) (s : Nat) (i : Int), -(2 ^ 7) ≤ i → i < 2 ^ 7 →
      writeI8 p s i
        = writeUsize p s (if 0 ≤ i then i.toNat else (i + 2 ^ 8).toNat)) ∧
    (∀ (p : WordParams) (s : Nat) (i : Int), -(2 ^ 15) ≤ i → i < 2 ^ 15 →
      writeI16 p s i
        = writeUsize p s (if 0 ≤ i then i.toNat else (i + 2 ^ 16).toNat)) ∧
    (∀ (p : WordParams) (s : Nat) (i : Int), -(2 ^ 31) ≤ i → i < 2 ^ 31 →
      writeI32 p s i
        = writeUsize p s (if 0 ≤ i then i.toNat else (i + 2 ^ 32).toNat)) ∧
    (∀ (s : Nat) (i : Int), -(2 ^ 63) ≤ i → i < 2 ^ 63 →
      writeI64 w64 s i
        = writeUsize w64 s (if 0 ≤ i then i.toNat else (i + 2 ^ 64).toNat)) ∧
    (∀ (s : Nat) (i : Int), -(2 ^ 63) ≤ i → i < 2 ^ 63 →
      writeIsize w64 s i
        = writeUsize w64 s (if 0 ≤ i then i.toNat else (i + 2 ^ 64).toNat)) := by
  refine ⟨fun p s i => ⟨rfl, rfl, rfl⟩, ?_, ?_, ?_, ?_,
    fun p s i => ⟨rfl, rfl, rfl, rfl⟩, ?_, ?_, ?_, ?_, ?_⟩
  · intro s i h
    simp only [writeU64, w64, if_pos]
    rw [Nat.mod_eq_of_lt h]
  · intro s i h
    simp only [writeU64, w32]
    norm_num
    rw [Nat.shiftRight_eq_div_pow]
    congr 1
    omega
  · intro s i h
    simp only [writeU128, writeU64, w64]
    norm_num
    rw [Nat.shiftRight_eq_div_pow]
    congr 2
    all_goals omega
  · intro s i h
    simp only [writeU128, writeU64, w32]
    norm_num
    rw [Nat.shiftRight_eq_div_pow, Nat.shiftRight_eq_div_pow,
      Nat.shiftRight_eq_div_pow]
    congr 3 <;> omega
  · intro p s i h1 h2
    simp only [writeI8, writeU8, toUnsigned]
    congr 1
    split
    · omega
    · omega
  · intro p s i h1 h2
    simp only [writeI16, writeU16, toUnsigned]
    congr 1
    split
    · omega
    · omega
  · intro p s i h1 h2
    simp only [writeI32, writeU32, toUnsigned]
    congr 1
    split
    · omega
    · omega
  · intro s i h1 h2
    simp only [writeI64, writeU64, w64, toUnsigned]
    norm_num
    congr 1
    split
    · omega
    · omega
  · intro s i h1 h2
    simp only [writeIsize, w64, toUnsigned]
    congr 1
    split
    · omega
    · omega

/-- Witness for C8: a 64-bit value split low-then-high on the 32-bit
build, and a negative byte absorbed as its two's-complement pattern. -/
theorem claim_convenience_writes_witness :
    writeU64 w32 7 81985529216486895
      = writeUsize w32 (writeUsize w32 7 (81985529216486895 % 2 ^ 32))
          (81985529216486895 / 2 ^ 32) ∧
    writeI8 w64 5 (-3)
      = writeUsize w64 5
          (if (0 : Int) ≤ -3 then ((-3 : Int)).toNat else ((-3 : Int) + 2 ^ 8).toNat) :=
  ⟨claim_convenience_writes.2.2.1 7 81985529216486895 (by norm_num),
   claim_convenience_writes.2.2.2.2.2.2.1 w64 5 (-3) (by norm_num) (by norm_num)⟩

/-- C5: from any accumulator state, absorbing the bytes
`{0x68, 0x65, 0x6c}` (`"hel"`) via `write` produces the same state — and
hence the same digest — as absorbing, via `write_usize`, the length word 3
followed by one word whose low three bytes are `0x68, 0x65, 0x6c` in
native (little-endian) order and whose remaining bytes are zero
(`0x6c6568`). -/
theorem claim_hel_scenario (s : Nat) :
    write w64 s [0x68, 0x65, 0x6c] = writeUsize w64 (writeUsize w64 s 3) 0x6c6568 ∧
    finish w64 (write w64 s [0x68, 0x65, 0x6c])
      = finish w64 (writeUsize w64 (writeUsize w64 s 3) 0x6c6568) := by
  have h : write w64 s [0x68, 0x65, 0x6c]
      = writeUsize w64 (writeUsize w64 s 3) 0x6c6568 := by
    rw [write_eq_foldl w64 (by norm_num [WordParams.bytes, w64])
      (fun t ht => padRemainder_w64_eq t ht) s]
    simp [specWords, fromLEBytes, WordParams.bytes, w64, List.replicate]
  exact ⟨h, by rw [h]⟩

/-- C7 counterexample: the claim asserts that, from a fresh accumulator,
the digest after absorbing an empty slice and then the single zero byte
differs from the digest after absorbing only the single zero byte; in fact
the two digests are equal, because every word absorbed for an empty slice
is zero and the zero state is a fixed point of absorbing zeros. -/
theorem claim_empty_slice_cex :
    finish w64 (write w64 (write w64 defaultState []) [0])
      = finish w64 (write w64 defaultState [0]) := by decide

/-- C7 amended: from a fresh accumulator, the digest after absorbing an
empty slice and then a single-zero-byte slice differs from the digest with
the two slices in swapped order; but absorbing the empty slice first
leaves the zero state unchanged, so that digest equals the one obtained
from the single-zero-byte slice alone (absorbing an empty slice after the
zero byte, from the then-nonzero state, does change the digest). -/
theorem claim_empty_slice_amended :
    write w64 defaultState [] = defaultState ∧
    finish w64 (write w64 (write w64 defaultState []) [0])
      ≠ finish w64 (write w64 (write w64 defaultState [0]) []) ∧
    finish w64 (write w64 (write w64 defaultState []) [0])
      = finish w64 (write w64 defaultState [0]) ∧
    finish w64 (write w64 (write w64 defaultState [0]) [])
      ≠ finish w64 (write w64 defaultState [0]) := by
  refine ⟨by decide, by decide, by decide, by decide⟩

/-- C10: a freshly constructed accumulator finishes to digest 0 (on both
word widths): the zero state multiplied wide by `M` is zero, so the
low-minus-high combination is zero. -/
theorem claim_default_digest :
    finish w64 defaultState = 0 ∧ finish w32 defaultState = 0 := by decide

end ZwoHash
